import Mathlib

/-!
# BE-Alert XLSX→CSV convertor: verification of the conversion core

Shallow embedding of the conversion engine of `src/main.rs`
(BE-Alert BIN convertor): cell normalization (`cell_to_string`),
column resolution, the field transformers `extract_house_number` and
`normalize_be_phone`, the per-row record mapper and the conversion
driver `convert_xlsx_to_csv` / `validate_xlsx_columns`.

Strings are modelled through their character lists (`String.data`);
the two byte-level operations of `normalize_be_phone` (`&s[3..]`,
`s.remove(0)`) are additionally modelled at byte granularity
(`normalize_be_phone_bytes`) with `Option`, `none` standing for a panic.
-/

namespace BEAlert

/-- Unicode `White_Space` test, embedding the Rust function `char::is_whitespace`
(used by `str::trim`). -/
def is_rust_whitespace (c : Char) : Bool :=
  let n := c.toNat
  n = 0x9 || n = 0xA || n = 0xB || n = 0xC || n = 0xD || n = 0x20 ||
  n = 0x85 || n = 0xA0 || n = 0x1680 ||
  (0x2000 ≤ n && n ≤ 0x200A) ||
  n = 0x2028 || n = 0x2029 || n = 0x202F || n = 0x205F || n = 0x3000

/-- Embedding of the Rust function `char::is_ascii_digit` (`'0'..='9'`). -/
def is_ascii_digit (c : Char) : Bool :=
  48 ≤ c.toNat && c.toNat ≤ 57

/-- Embedding of the Rust function `str::trim` on the character list of a string:
drop Unicode whitespace from both ends. -/
def trimChars (l : List Char) : List Char :=
  (((l.dropWhile is_rust_whitespace).reverse.dropWhile is_rust_whitespace)).reverse

/-- `str::trim` packaged on `String`. -/
def rustTrim (s : String) : String :=
  String.mk (trimChars s.data)

/-- Abstraction of a Rust `f64` cell value, exposing exactly the three
operations `cell_to_string` performs on it: the test `f.fract() == 0.0`,
the saturating cast `*f as i64`, and the default `Display` rendering
`f.to_string()`.  IEEE-754 arithmetic itself is not modelled. -/
structure F64 where
  fractIsZero : Bool
  toI64 : Int
  displayStr : String
deriving Repr, DecidableEq

/-- Decimal digit characters of a natural number (embedding the decimal
rendering used by the Rust function `i64::to_string`). -/
def natToDec (n : Nat) : List Char :=
  if h : n < 10 then [Char.ofNat (48 + n)]
  else natToDec (n / 10) ++ [Char.ofNat (48 + n % 10)]
decreasing_by
  exact Nat.div_lt_self (by omega) (by omega)

/-- Embedding of the Rust function `i64::to_string`: optional minus sign followed by
the decimal digits of the absolute value. -/
def i64_to_string (i : Int) : String :=
  if i < 0 then String.mk ('-' :: natToDec i.natAbs)
  else String.mk (natToDec i.natAbs)

/-- The decoded-cell type of the `calamine` crate (`Data`), restricted to
the shapes `cell_to_string` distinguishes: `string`, `float`, `int`,
`bool`, `empty`, and a catch-all `other` for the remaining kinds
(date-time, duration, error), which the source maps through `_ => …`. -/
inductive Data where
  | string (s : String)
  | float (f : F64)
  | int (i : Int)
  | bool (b : Bool)
  | empty
  | other
deriving Repr, DecidableEq

/-- Embedding of `cell_to_string` (`main.rs` lines 55–70). -/
def cell_to_string (cell : Data) : String :=
  match cell with
  | .string s => s
  | .float f => if f.fractIsZero then i64_to_string f.toI64 else f.displayStr
  | .int i => i64_to_string i
  | .bool b => if b then "true" else "false"
  | .empty => ""
  | .other => ""

/-- Key-value map insertion with overwrite, modelling
`HashMap::insert` (keyed association, later insert at the same key wins). -/
def mapInsert (m : List (String × Nat)) (k : String) (v : Nat) :
    List (String × Nat) :=
  match m with
  | [] => [(k, v)]
  | (k', v') :: rest =>
    if k' = k then (k, v) :: rest else (k', v') :: mapInsert rest k v

/-- Key lookup, modelling `HashMap::get`. -/
def mapFind (m : List (String × Nat)) (k : String) : Option Nat :=
  match m with
  | [] => none
  | (k', v') :: rest => if k' = k then some v' else mapFind rest k

/-- Embedding of the header-resolution loop shared by
`validate_xlsx_columns` and `convert_xlsx_to_csv` (`main.rs` 139–145 and
166–172): enumerate header cells, trim the normalized text, insert
non-empty names. -/
def buildCols (header : List Data) : List (String × Nat) :=
  header.enum.foldl
    (fun m p =>
      let name := rustTrim (cell_to_string p.2)
      if name = "" then m else mapInsert m name p.1)
    []

/-- Embedding of `get` (`main.rs` 72–79): resolve the column by name, read
the cell at that position if present, normalize, default to the empty
string, and trim. -/
def get (cols : List (String × Nat)) (row : List Data) (name : String) :
    String :=
  rustTrim (((mapFind cols name).bind (fun i => row.get? i)).map cell_to_string
    |>.getD "")

/-- Embedding of `extract_house_number` (`main.rs` 85–95): trim, then keep
the leading run of ASCII digits, stopping at the first non-digit. -/
def extract_house_number (input : String) : String :=
  String.mk ((trimChars input.data).takeWhile is_ascii_digit)

/-- The character filter at the top of `normalize_be_phone`
(`main.rs` 102–106): trim, then keep only ASCII digits and `'+'`. -/
def phoneFilter (input : String) : List Char :=
  (trimChars input.data).filter (fun c => is_ascii_digit c || c = '+')

/-- Embedding of `normalize_be_phone` (`main.rs` 101–126) at character
granularity (the byte-exact version is `normalize_be_phone_bytes`). -/
def normalize_be_phone (input : String) : String :=
  let s := phoneFilter input
  if s.isEmpty then ""
  else if List.isPrefixOf ['+', '3', '2'] s then
    String.mk ("0032".data ++ s.drop 3)
  else if s.head? = some '0' then String.mk ("0032".data ++ s.tail)
  else if s.head? = some '4' then String.mk ("0032".data ++ s)
  else String.mk s

/-- Byte-boundary suffix extraction: `sliceFromByte l i` models the Rust
slice `&s[i..]` on the string whose characters are `l`; it returns `none`
exactly when `i` is not a character (UTF-8) boundary of the string or lies
beyond its byte length — the cases in which Rust panics. -/
def sliceFromByte : List Char → Nat → Option (List Char)
  | l, 0 => some l
  | [], _ + 1 => none
  | c :: rest, i + 1 =>
    if _h : c.utf8Size ≤ i + 1 then sliceFromByte rest (i + 1 - c.utf8Size)
    else none

/-- Models `String::remove(0)`: `none` (panic) on the empty string,
otherwise the string without its first character. -/
def removeFirst : List Char → Option (List Char)
  | [] => none
  | _ :: t => some t

/-- Byte-exact embedding of `normalize_be_phone` (`main.rs` 101–126):
the slice `&s[3..]` and the call `s.remove(0)` are modelled by the
fallible `sliceFromByte` / `removeFirst`, with `none` standing for a
panic. -/
def normalize_be_phone_bytes (input : String) : Option (List Char) :=
  let s := phoneFilter input
  if s.isEmpty then some []
  else if List.isPrefixOf ['+', '3', '2'] s then
    (sliceFromByte s 3).map (fun rest => "0032".data ++ rest)
  else if s.head? = some '0' then
    (removeFirst s).map (fun rest => "0032".data ++ rest)
  else if s.head? = some '4' then some ("0032".data ++ s)
  else some s

/-- The six required input column names (`REQUIRED_COLUMNS`,
`main.rs` 44–51), in declaration order. -/
def REQUIRED_COLUMNS : List String :=
  ["Voornaam", "Naam", "Straat", "Huisnummer", "Mobiel nummer", "E-mailadres"]

/-- Embedding of `validate_xlsx_columns` (`main.rs` 128–154) from the
rows of the first worksheet onward (workbook decoding is external): resolve the
header, fail on the first required column missing in declaration order. -/
def validate_xlsx_columns (sheet : List (List Data)) : Except String Unit :=
  match sheet with
  | [] => Except.error "Empty sheet (no header row)"
  | header :: _ =>
    let cols := buildCols header
    match REQUIRED_COLUMNS.find? (fun r => (mapFind cols r).isNone) with
    | some r => Except.error ("Missing required XLSX column: " ++ r)
    | none => Except.ok ()

/-- The fixed 33-column output header written by `convert_xlsx_to_csv`
(`main.rs` 186–220). -/
def output_header : List String :=
  ["Tel/Ref.", "Civilité", "Naam", "Voornaam", "Adres incl huisnummer",
   "Bijkomend adres", "Postcode", "Gemeente", "Geboortedatum", "Email",
   "FAX", "FAX2", "FAX3", "Verdieping", "Aantal inwoners", "Telefoon 2",
   "Telefoon 3", "Telefoon 4", "Telefoon 5", "Telefoone 6", "Telefoon 7",
   "SMS", "SMS 2", "SMS 3", "Pager", "Zone libre 1", "Zone libre 2",
   "Zone libre 3", "Taal", "Land", "Rode lijst", "Type Contact",
   "GPS coördinaten"]

/-- Embedding of the per-row body of the conversion loop
(`main.rs` 230–286): read the six required fields, transform, and emit the
33-field record.  The assignments `csv_voornaam = xlsx_voornaam` and
`csv_naam = xlsx_naam` are carried over verbatim from lines 249–250. -/
def mapRow (cols : List (String × Nat)) (row : List Data) : List String :=
  let xlsx_voornaam := get cols row "Voornaam"
  let xlsx_naam := get cols row "Naam"
  let straat := get cols row "Straat"
  let huisnr_raw := get cols row "Huisnummer"
  let huisnr_clean := extract_house_number huisnr_raw
  let email := get cols row "E-mailadres"
  let mobiel_raw := get cols row "Mobiel nummer"
  let tel_ref := normalize_be_phone mobiel_raw
  let adres_incl := rustTrim (straat ++ " " ++ huisnr_clean)
  let csv_voornaam := xlsx_voornaam
  let csv_naam := xlsx_naam
  [tel_ref, "", csv_naam, csv_voornaam, adres_incl, "", "3570", "Alken",
   "", email, "", "", "", "", "", "", "", "", "", "", "", "", "", "", "",
   "", "", "", "NL", "BE", "0", "P", ""]

/-- Embedding of `convert_xlsx_to_csv` (`main.rs` 156–291) from the first
rows of the first worksheet onward.  The success value is the full sequence of
records written to the output file, header record first.  In the source
the CSV writer is created only after column validation succeeds
(line 181 follows the check at 175–179), so an error result means no
output-file content was written at all. -/
def convert_xlsx_to_csv (sheet : List (List Data)) :
    Except String (List (List String)) :=
  match sheet with
  | [] => Except.error "Empty sheet (no header row)"
  | header :: dataRows =>
    let cols := buildCols header
    match REQUIRED_COLUMNS.find? (fun r => (mapFind cols r).isNone) with
    | some r => Except.error ("Missing required XLSX column: " ++ r)
    | none => Except.ok (output_header :: dataRows.map (mapRow cols))

/-- One CSV field as serialized by the `csv` crate with delimiter `';'`
and default quoting: quoted (with inner quotes doubled) only when the
field contains the delimiter, a quote, or a line break. -/
def csvField (s : String) : String :=
  if s.data.any (fun c => c = ';' || c = '"' || c = '\n' || c = '\r') then
    "\"" ++
      String.mk (s.data.foldr
        (fun c acc => if c = '"' then '"' :: '"' :: acc else c :: acc) []) ++
      "\""
  else s

/-- One output line: the fields of a record joined with `';'`. -/
def csvLine (fields : List String) : String :=
  String.intercalate ";" (fields.map csvField)

/-- Modelled from the wording of the spec (§4.3, steps 1–6 of
`normalizePhone`): trim and keep only ASCII digits and `'+'`; empty stays
empty; a `"+32"` character-prefix is replaced by `"0032"` keeping the
remainder after those three characters; else one leading `'0'` is dropped
and `"0032"` prepended; else a leading `'4'` keeps the whole string after
`"0032"`; else the filtered string is returned unchanged — first match
wins. -/
def normalizePhoneSpec (input : String) : String :=
  let s := phoneFilter input
  if s = [] then ""
  else if s.take 3 = "+32".data then String.mk ("0032".data ++ s.drop 3)
  else if s.take 1 = "0".data then String.mk ("0032".data ++ s.drop 1)
  else if s.take 1 = "4".data then String.mk ("0032".data ++ s)
  else String.mk s

/-- The header row of the one-row demonstration workbook of the spec
(§8): the six required columns in their natural order. -/
def demo_header : List Data :=
  [Data.string "Voornaam", Data.string "Naam", Data.string "Straat",
   Data.string "Huisnummer", Data.string "Mobiel nummer",
   Data.string "E-mailadres"]

/-- The single data row of the demonstration workbook:
Voornaam="Jan", Naam="Peeters", Straat="Dorpsstraat",
Huisnummer="12 Bus 3", Mobiel nummer="0470 12 34 56",
E-mailadres="jan@example.com". -/
def demo_row : List Data :=
  [Data.string "Jan", Data.string "Peeters", Data.string "Dorpsstraat",
   Data.string "12 Bus 3", Data.string "0470 12 34 56",
   Data.string "jan@example.com"]

/-- The demonstration workbook: header plus the one data row. -/
def demo_sheet : List (List Data) := [demo_header, demo_row]

/-- The data record the conversion emits for `demo_row`, written out
field by field. -/
def demo_record : List String :=
  ["0032470123456", "", "Peeters", "Jan", "Dorpsstraat 12", "", "3570",
   "Alken", "", "jan@example.com", "", "", "", "", "", "", "", "", "",
   "", "", "", "", "", "", "", "", "", "NL", "BE", "0", "P", ""]

/-- The 22 output positions that are neither derived from the input row
(0, 2, 3, 4, 9) nor constant (6, 7, 28, 29, 30, 31): these hold the
permanently empty fields. -/
def EMPTY_POSITIONS : List Nat :=
  [1, 5, 8, 10, 11, 12, 13, 14, 15, 16, 17, 18, 19, 20, 21, 22, 23, 24,
   25, 26, 27, 32]

/-! ## Helper lemmas -/

lemma digit_not_ws {c : Char} (h : is_ascii_digit c = true) :
    is_rust_whitespace c = false := by
  simp only [is_ascii_digit, Bool.and_eq_true, decide_eq_true_eq] at h
  simp only [is_rust_whitespace, Bool.or_eq_false_iff, Bool.and_eq_false_iff,
    decide_eq_false_iff_not]
  omega

lemma dropWhile_eq_self_of_all {p : Char → Bool} {l : List Char}
    (h : ∀ c ∈ l, p c = false) : l.dropWhile p = l := by
  cases l with
  | nil => rfl
  | cons c t => simp [List.dropWhile_cons, h c (List.mem_cons_self c t)]

lemma trimChars_of_digits {l : List Char}
    (h : ∀ c ∈ l, is_ascii_digit c = true) : trimChars l = l := by
  unfold trimChars
  rw [dropWhile_eq_self_of_all (fun c hc => digit_not_ws (h c hc)),
    dropWhile_eq_self_of_all
      (fun c hc => digit_not_ws (h c (List.mem_reverse.mp hc))),
    List.reverse_reverse]

lemma head?_dropWhile_all (p : Char → Bool) (l : List Char) :
    ((l.dropWhile p).head?.all fun c => !p c) = true := by
  induction l with
  | nil => rfl
  | cons c t ih =>
    by_cases h : p c
    · simpa [List.dropWhile_cons, h] using ih
    · simp [List.dropWhile_cons, h]

/-! ## Claim C5: the house-number extractor -/

/-- Claim C5: `extract_house_number` returns the maximal run of leading
ASCII digits of the trimmed input — the trimmed input decomposes as the
result followed by a remainder whose first character (if any) is not a
digit, the result consists of digits only, and the four examples of the
spec hold (`"11A"→"11"`, `"12 Bus 3"→"12"`, `"A12"→""`, `"  7"→"7"`). -/
theorem extract_house_number_spec :
    (∀ s : String, ∃ rest : List Char,
        trimChars s.data = (extract_house_number s).data ++ rest ∧
        (∀ c ∈ (extract_house_number s).data, is_ascii_digit c = true) ∧
        (rest.head?.all fun c => !is_ascii_digit c) = true) ∧
    extract_house_number "11A" = "11" ∧
    extract_house_number "12 Bus 3" = "12" ∧
    extract_house_number "A12" = "" ∧
    extract_house_number "  7" = "7" := by
  refine ⟨fun s => ?_, by decide, by decide, by decide, by decide⟩
  refine ⟨(trimChars s.data).dropWhile is_ascii_digit, ?_, ?_, ?_⟩
  · exact (List.takeWhile_append_dropWhile is_ascii_digit (trimChars s.data)).symm
  · exact fun c hc => List.mem_takeWhile_imp hc
  · exact head?_dropWhile_all is_ascii_digit (trimChars s.data)

/-! ## Claim C9: idempotence of the house-number extractor -/

/-- Claim C9: `extract_house_number` is idempotent — re-applying it to its
own output returns that output unchanged. -/
theorem extract_house_number_idempotent (s : String) :
    extract_house_number (extract_house_number s) = extract_house_number s := by
  have hdig : ∀ c ∈ (trimChars s.data).takeWhile is_ascii_digit,
      is_ascii_digit c = true := fun c hc => List.mem_takeWhile_imp hc
  show String.mk (trimChars ((trimChars s.data).takeWhile is_ascii_digit)
      |>.takeWhile is_ascii_digit) = _
  rw [trimChars_of_digits hdig, List.takeWhile_eq_self_iff.mpr hdig]
  rfl

/-- Witness for C9 at a concrete input (C9 has only a universally
quantified string, supplied here). -/
theorem extract_house_number_idempotent_witness :
    extract_house_number (extract_house_number "12 Bus 3") =
      extract_house_number "12 Bus 3" :=
  extract_house_number_idempotent "12 Bus 3"

/-! ## Claim C3: the phone normalizer follows the spec algorithm -/

/-- Claim C3: the source phone normalizer agrees with the algorithm the
spec states, branch for branch, in the claimed first-match-wins order. -/
theorem normalize_be_phone_follows_spec (input : String) :
    normalize_be_phone input = normalizePhoneSpec input := by
  unfold normalize_be_phone normalizePhoneSpec
  cases hs : phoneFilter input with
  | nil => rfl
  | cons a t =>
    rw [if_neg (show ¬((a :: t).isEmpty = true) by simp),
      if_neg (show ¬(a :: t = []) by simp)]
    have hpre : (List.isPrefixOf ['+', '3', '2'] (a :: t) = true) ↔
        ((a :: t).take 3 = "+32".data) := by
      rw [List.isPrefixOf_iff_prefix, List.prefix_iff_eq_take]
      exact ⟨fun h => h.symm, fun h => h.symm⟩
    by_cases h32 : (a :: t).take 3 = "+32".data
    · rw [if_pos (hpre.mpr h32), if_pos h32]
    · rw [if_neg (fun h => h32 (hpre.mp h)), if_neg h32]
      have h0 : ((a :: t).head? = some '0') ↔ ((a :: t).take 1 = "0".data) := by
        show some a = some '0' ↔ [a] = ['0']
        simp
      have h4 : ((a :: t).head? = some '4') ↔ ((a :: t).take 1 = "4".data) := by
        show some a = some '4' ↔ [a] = ['4']
        simp
      by_cases h0c : (a :: t).head? = some '0'
      · rw [if_pos h0c, if_pos (h0.mp h0c)]
        rfl
      · rw [if_neg h0c, if_neg (fun h => h0c (h0.mpr h))]
        by_cases h4c : (a :: t).head? = some '4'
        · rw [if_pos h4c, if_pos (h4.mp h4c)]
        · rw [if_neg h4c, if_neg (fun h => h4c (h4.mpr h))]

/-- Witness for C3 at a concrete input (C3 has only a universally
quantified string, supplied here). -/
theorem normalize_be_phone_follows_spec_witness :
    normalize_be_phone "+32 470-12.34.56" =
      normalizePhoneSpec "+32 470-12.34.56" :=
  normalize_be_phone_follows_spec "+32 470-12.34.56"

/-! ## Claim C10: the byte-level operations never panic -/

lemma sliceFromByte_plus32 (rest : List Char) :
    sliceFromByte ('+' :: '3' :: '2' :: rest) 3 = some rest := by
  have h1 : ('+' : Char).utf8Size = 1 := rfl
  have h2 : ('3' : Char).utf8Size = 1 := rfl
  have h3 : ('2' : Char).utf8Size = 1 := rfl
  simp [sliceFromByte, h1, h2, h3]

/-- Claim C10: the byte-granular embedding of `normalize_be_phone` (where
the slice `&s[3..]` and `s.remove(0)` return `none` on the inputs that
would make Rust panic) never returns `none`, and agrees with the pure
character-level version: the function is total over arbitrary input
text. -/
theorem normalize_be_phone_bytes_no_panic (input : String) :
    normalize_be_phone_bytes input = some (normalize_be_phone input).data := by
  unfold normalize_be_phone_bytes normalize_be_phone
  cases hs : phoneFilter input with
  | nil => rfl
  | cons a t =>
    rw [if_neg (show ¬((a :: t).isEmpty = true) by simp),
      if_neg (show ¬((a :: t).isEmpty = true) by simp)]
    by_cases h32 : List.isPrefixOf ['+', '3', '2'] (a :: t)
    · obtain ⟨rest, hrest⟩ : ∃ rest, a :: t = '+' :: '3' :: '2' :: rest := by
        obtain ⟨u, hu⟩ := List.isPrefixOf_iff_prefix.mp h32
        exact ⟨u, hu.symm⟩
      rw [if_pos h32, if_pos h32, hrest, sliceFromByte_plus32]
      rfl
    · rw [if_neg h32, if_neg h32]
      by_cases h0 : (a :: t).head? = some '0'
      · rw [if_pos h0, if_pos h0]
        rfl
      · rw [if_neg h0, if_neg h0]
        by_cases h4 : (a :: t).head? = some '4'
        · rw [if_pos h4, if_pos h4]
        · rw [if_neg h4, if_neg h4]

/-! ## Claim C6: the cell normalizer -/

lemma toNat_char_ofNat_digit (n : Nat) (h : n < 10) :
    (Char.ofNat (48 + n)).toNat = 48 + n := by
  have hv : Nat.isValidChar (48 + n) := Or.inl (by omega)
  rw [Char.ofNat, dif_pos hv]
  simp [Char.toNat, Char.ofNatAux, UInt32.toNat, UInt32.ofNat']

lemma natToDec_all_digit (n : Nat) :
    ∀ c ∈ natToDec n, is_ascii_digit c = true := by
  induction n using Nat.strong_induction_on with
  | _ n ih =>
    intro c hc
    unfold natToDec at hc
    split at hc
    · next h =>
      simp only [List.mem_singleton] at hc
      subst hc
      simp only [is_ascii_digit, toNat_char_ofNat_digit n h,
        Bool.and_eq_true, decide_eq_true_eq]
      omega
    · next h =>
      rcases List.mem_append.mp hc with hmem | hmem
      · exact ih (n / 10) (Nat.div_lt_self (by omega) (by omega)) c hmem
      · simp only [List.mem_singleton] at hmem
        subst hmem
        have hlt : n % 10 < 10 := Nat.mod_lt n (by omega)
        simp only [is_ascii_digit, toNat_char_ofNat_digit _ hlt,
          Bool.and_eq_true, decide_eq_true_eq]
        omega

lemma no_dot_i64_to_string (i : Int) : '.' ∉ (i64_to_string i).data := by
  have hdig : ∀ c ∈ natToDec i.natAbs, is_ascii_digit c = true :=
    natToDec_all_digit i.natAbs
  have hne : ∀ c ∈ natToDec i.natAbs, c ≠ '.' := by
    intro c hc heq
    have := hdig c hc
    subst heq
    simp [is_ascii_digit] at this
  unfold i64_to_string
  split
  · intro hmem
    rcases List.mem_cons.mp hmem with h | h
    · exact absurd h.symm (by decide)
    · exact hne _ h rfl
  · intro hmem
    exact hne _ hmem rfl

/-- Claim C6: `cell_to_string` is total by construction (it is a plain
function into `String`); a text cell is returned unmodified, a numeric
cell with integral value (a `Float` whose fractional part is zero, or an
`Int` cell) renders as an integer literal containing no decimal point, a
non-integral numeric cell renders through the platform default
floating-point form, and blank or unsupported cells give the empty
string. -/
theorem cell_to_string_spec :
    (∀ s, cell_to_string (Data.string s) = s) ∧
    (∀ f : F64, f.fractIsZero = true →
      '.' ∉ (cell_to_string (Data.float f)).data) ∧
    (∀ f : F64, f.fractIsZero = false →
      cell_to_string (Data.float f) = f.displayStr) ∧
    (∀ i : Int, '.' ∉ (cell_to_string (Data.int i)).data) ∧
    cell_to_string Data.empty = "" ∧
    cell_to_string Data.other = "" := by
  refine ⟨fun s => rfl, ?_, ?_, ?_, rfl, rfl⟩
  · intro f hf
    show '.' ∉ (if f.fractIsZero then i64_to_string f.toI64
      else f.displayStr).data
    rw [hf, if_pos rfl]
    exact no_dot_i64_to_string f.toI64
  · intro f hf
    show (if f.fractIsZero then i64_to_string f.toI64 else f.displayStr) = _
    rw [hf]
    rfl
  · exact fun i => no_dot_i64_to_string i

/-- Witness for C6: the hypothesis-bearing conjuncts applied at concrete
cells (an integral float must print with no dot, a non-integral float
prints its platform form). -/
theorem cell_to_string_spec_witness :
    '.' ∉ (cell_to_string (Data.float ⟨true, 1234, "unused"⟩)).data ∧
    cell_to_string (Data.float ⟨false, 0, "1.5"⟩) = "1.5" :=
  ⟨cell_to_string_spec.2.1 ⟨true, 1234, "unused"⟩ rfl,
   cell_to_string_spec.2.2.1 ⟨false, 0, "1.5"⟩ rfl⟩

/-! ## Claim C8: missing columns or missing cells read as empty strings -/

/-- Claim C8: reading a required field through `get` is total — when the
column name is absent from the resolved index, or the resolved position
lies at or beyond the length of the data row, the result is the empty
string, never an error (downstream transforms are plain functions on
strings, so no per-row failure is possible). -/
theorem get_missing_yields_empty (cols : List (String × Nat))
    (row : List Data) (name : String) :
    (mapFind cols name = none → get cols row name = "") ∧
    (∀ i, mapFind cols name = some i → row.length ≤ i →
      get cols row name = "") := by
  constructor
  · intro h
    unfold get
    rw [h]
    rfl
  · intro i hf hlen
    unfold get
    rw [hf]
    have hrow : row.get? i = none := by
      rw [List.get?_eq_none]
      exact hlen
    show rustTrim ((Option.map cell_to_string (row.get? i)).getD "") = ""
    rw [hrow]
    rfl

/-- Witness for C8: both hypotheses discharged at concrete inputs — a
name absent from the index, and a resolved position past the end of the
row. -/
theorem get_missing_yields_empty_witness :
    get [] [Data.string "x"] "Naam" = "" ∧
    get [("Voornaam", 5)] [Data.string "x"] "Voornaam" = "" :=
  ⟨(get_missing_yields_empty [] [Data.string "x"] "Naam").1 rfl,
   (get_missing_yields_empty [("Voornaam", 5)] [Data.string "x"]
      "Voornaam").2 5 rfl (by decide)⟩

/-! ## Claim C4: a missing required column fails both entry points -/

lemma find?_eq_of_get?_take {p : String → Bool} :
    ∀ (l : List String) (i : Nat) (x : String),
      l.get? i = some x → p x = true →
      ((l.take i).all fun y => !p y) = true → l.find? p = some x := by
  intro l
  induction l with
  | nil => intro i x h _ _; simp at h
  | cons a t ih =>
    intro i x hget hp hall
    cases i with
    | zero =>
      simp only [List.get?] at hget
      injection hget with hget
      subst hget
      simp [List.find?, hp]
    | succ j =>
      simp only [List.take, List.all_cons, Bool.and_eq_true,
        Bool.not_eq_true'] at hall
      obtain ⟨ha, hall'⟩ := hall
      simp only [List.get?] at hget
      rw [List.find?_cons_of_neg _ (by simp [ha])]
      exact ih j x hget hp hall'

/-- Claim C4: if the header lacks some required column — `name` sits at
position `i` of `REQUIRED_COLUMNS`, is absent from the resolved column
index, and every required column declared before it is present — then
both `validate_xlsx_columns` and `convert_xlsx_to_csv` fail with the
error naming exactly that first missing column, and the conversion
produces no output records at all (the error result carries none; in the
source the CSV writer is only created after this check succeeds). -/
theorem missing_column_fails (header : List Data) (rest : List (List Data))
    (i : Nat) (name : String)
    (hget : REQUIRED_COLUMNS.get? i = some name)
    (hmiss : mapFind (buildCols header) name = none)
    (hbefore : ((REQUIRED_COLUMNS.take i).all
      fun n => (mapFind (buildCols header) n).isSome) = true) :
    validate_xlsx_columns (header :: rest) =
      Except.error ("Missing required XLSX column: " ++ name) ∧
    convert_xlsx_to_csv (header :: rest) =
      Except.error ("Missing required XLSX column: " ++ name) := by
  have hfind : REQUIRED_COLUMNS.find?
      (fun r => (mapFind (buildCols header) r).isNone) = some name := by
    apply find?_eq_of_get?_take REQUIRED_COLUMNS i name hget
    · rw [hmiss]
      rfl
    · rw [List.all_eq_true] at hbefore ⊢
      intro n hn
      have h2 := hbefore n hn
      cases hopt : mapFind (buildCols header) n with
      | none => rw [hopt] at h2; exact absurd h2 (by simp)
      | some v => rfl
  constructor <;>
    simp only [validate_xlsx_columns, convert_xlsx_to_csv, hfind]

/-- Witness for C4: a header carrying five of the six required names but
not `"Mobiel nummer"` (position 4 in declaration order) makes both entry
points fail naming `"Mobiel nummer"`. -/
theorem missing_column_fails_witness :
    validate_xlsx_columns
        [[Data.string "Voornaam", Data.string "Naam", Data.string "Straat",
          Data.string "Huisnummer", Data.string "E-mailadres"]] =
      Except.error ("Missing required XLSX column: " ++ "Mobiel nummer") ∧
    convert_xlsx_to_csv
        [[Data.string "Voornaam", Data.string "Naam", Data.string "Straat",
          Data.string "Huisnummer", Data.string "E-mailadres"]] =
      Except.error ("Missing required XLSX column: " ++ "Mobiel nummer") :=
  missing_column_fails
    [Data.string "Voornaam", Data.string "Naam", Data.string "Straat",
     Data.string "Huisnummer", Data.string "E-mailadres"]
    [] 4 "Mobiel nummer" rfl (by decide) (by decide)

/-! ## Claim C1: the announced name swap is absent from the code -/

/-- Claim C1, evaluated on the code at the failing input: for the input
row with `Voornaam="Jan"`, `Naam="Peeters"`, the emitted record carries
`"Peeters"` at index 2 — the output column labelled `Naam` — and `"Jan"`
at index 3 — the output column labelled `Voornaam`.  The output columns
thus receive the same-named input values, NOT the swapped values the
claim (and the comments at `main.rs` lines 25 and 246–248) require. -/
theorem name_swap_absent :
    convert_xlsx_to_csv demo_sheet = Except.ok [output_header, demo_record] ∧
    output_header.get? 2 = some "Naam" ∧
    output_header.get? 3 = some "Voornaam" ∧
    demo_record.get? 2 = some "Peeters" ∧
    demo_record.get? 3 = some "Jan" :=
  ⟨rfl, rfl, rfl, rfl, rfl⟩

/-! ## Claim C2: the end-to-end output line -/

/-- Claim C2: converting the one-row demonstration workbook yields
exactly the header line and the data line
`0032470123456;;Peeters;Jan;Dorpsstraat 12;;3570;Alken;;jan@example.com;;;;;;;;;;;;;;;;;;;NL;BE;0;P;`,
whose record has exactly 33 fields, empty fields rendered as nothing
between consecutive separators. -/
theorem end_to_end_demo :
    (convert_xlsx_to_csv demo_sheet).map (fun out => out.map csvLine) =
      Except.ok [csvLine output_header,
        "0032470123456;;Peeters;Jan;Dorpsstraat 12;;3570;Alken;;jan@example.com;;;;;;;;;;;;;;;;;;;NL;BE;0;P;"] ∧
    demo_record.length = 33 ∧
    csvLine demo_record =
      "0032470123456;;Peeters;Jan;Dorpsstraat 12;;3570;Alken;;jan@example.com;;;;;;;;;;;;;;;;;;;NL;BE;0;P;" :=
  ⟨rfl, rfl, rfl⟩

/-! ## Claim C7: the fixed output schema -/

/-- Claim C7 counterexample: the record emitted for the demonstration row
has exactly 22 empty fields; since its five derived fields
(`Tel/Ref.`, `Naam`, `Voornaam`, `Adres incl huisnummer`, `Email`) and
its six constant fields are all non-empty here, the permanently empty
non-derived fields number 22, not 21 as the claim counts. -/
theorem fixed_schema_empty_count :
    convert_xlsx_to_csv demo_sheet = Except.ok [output_header, demo_record] ∧
    demo_record.countP (fun s => s = "") = 22 ∧
    ¬ demo_record.countP (fun s => s = "") = 21 :=
  ⟨rfl, by decide, by decide⟩

/-- Claim C7 as amended (22 rather than 21 permanently empty fields):
every emitted data record has exactly 33 fields, carries the six
constants `"3570"`, `"Alken"`, `"NL"`, `"BE"`, `"0"`, `"P"` at the §6
positions 6, 7, 28, 29, 30, 31, and is empty at each of the 22 remaining
non-derived positions. -/
theorem fixed_schema_amended (sheet : List (List Data))
    (out : List (List String))
    (h : convert_xlsx_to_csv sheet = Except.ok out) :
    ∀ rec ∈ out.tail, rec.length = 33 ∧
      rec.get? 6 = some "3570" ∧ rec.get? 7 = some "Alken" ∧
      rec.get? 28 = some "NL" ∧ rec.get? 29 = some "BE" ∧
      rec.get? 30 = some "0" ∧ rec.get? 31 = some "P" ∧
      EMPTY_POSITIONS.length = 22 ∧
      ∀ j ∈ EMPTY_POSITIONS, rec.get? j = some "" := by
  intro rec hrec
  cases sheet with
  | nil => simp [convert_xlsx_to_csv] at h
  | cons header dataRows =>
    simp only [convert_xlsx_to_csv] at h
    cases hf : REQUIRED_COLUMNS.find?
        (fun r => (mapFind (buildCols header) r).isNone) with
    | some r => rw [hf] at h; cases h
    | none =>
      rw [hf] at h
      injection h with h
      subst h
      simp only [List.tail_cons] at hrec
      obtain ⟨row, _, hrow⟩ := List.mem_map.mp hrec
      subst hrow
      refine ⟨rfl, rfl, rfl, rfl, rfl, rfl, rfl, rfl, ?_⟩
      intro j hj
      fin_cases hj <;> rfl

/-- Witness for C7: the amended theorem applied to the demonstration
workbook and its emitted record. -/
theorem fixed_schema_amended_witness :
    (mapRow (buildCols demo_header) demo_row).get? 6 = some "3570" ∧
    (mapRow (buildCols demo_header) demo_row).get? 31 = some "P" ∧
    (mapRow (buildCols demo_header) demo_row).get? 8 = some "" := by
  have h := fixed_schema_amended demo_sheet
    (output_header :: [mapRow (buildCols demo_header) demo_row]) rfl
    (mapRow (buildCols demo_header) demo_row) (by simp)
  exact ⟨h.2.1, h.2.2.2.2.2.2.1,
    h.2.2.2.2.2.2.2.2 8 (by simp [EMPTY_POSITIONS])⟩

end BEAlert
